import Mathlib

/-!
Shallow embedding of the telegram-converter-bot conversion core
(src/bot.py and src/bot_simple.py) and verification of its specification.

The embedding models:
  * the category registry (`SUPPORTED_CONVERSIONS`, `get_file_category`,
    the options filter `targetOptionsFor`),
  * the upload staging flow (`process_file` in bot_simple.py, and the
    bot.py variant whose size check reads an unbound name),
  * the conversion callback flow (`handle_conversion` in both files;
    external effects such as the transport download, the presence of the
    output file on disk and the outbound send are supplied as an
    environment `ConvEnv` of booleans),
  * the tabular converter `convert_data` (pandas readers and writers
    are abstract codecs supplied as a `DataCodecs` record),
  * the media converter `convert_video` (media handles are counted;
    the moviepy calls are represented by a `VideoEnv` of outcomes).
-/

namespace ConverterBot

/-! ## Python path helpers

`pathlib.PurePath.name`, `.suffix` and `.stem` restricted to what the
bot uses. `suffix` is the substring of the final component that starts
at the last dot, provided that dot is neither the first nor the last
character of the component; otherwise the empty string. -/

/-- Python `str.lower()`, character-wise (ASCII case mapping, which is
what every extension literal in the registry exercises). -/
def pyLower (s : String) : String :=
  ⟨s.toList.map Char.toLower⟩

/-- Final path component: the characters after the last slash. -/
def pathName (s : String) : String :=
  ⟨(s.toList.reverse.takeWhile (fun c => c ≠ '/')).reverse⟩

/-- `PurePath(s).suffix`: extension of the final component, with dot. -/
def pathSuffix (s : String) : String :=
  let name := (pathName s).toList
  match name.reverse.findIdx? (fun c => c = '.') with
  | none => ""
  | some j =>
      let i := name.length - 1 - j
      if 0 < i ∧ i < name.length - 1 then ⟨name.drop i⟩ else ""

/-- `PurePath(s).stem`: final component with the suffix removed. -/
def pathStem (s : String) : String :=
  let name := (pathName s).toList
  ⟨name.take (name.length - (pathSuffix s).toList.length)⟩

/-! ## Category registry (FileConverter.SUPPORTED_CONVERSIONS) -/

/-- One category row of the `SUPPORTED_CONVERSIONS` dict:
the accepted source extensions and the producible target extensions. -/
structure ConvFormats where
  fromExts : List String
  toExts : List String
deriving DecidableEq, Repr

/-- The registry is an insertion-ordered dict: an association list. -/
abbrev ConvTable := List (String × ConvFormats)

def imageFromExts : List String :=
  [".jpg", ".jpeg", ".png", ".bmp", ".gif", ".tiff", ".webp"]

def imageToExts : List String := [".jpg", ".png", ".pdf", ".webp"]

def documentFromExts : List String := [".pdf", ".docx", ".txt"]

def documentToExts : List String := [".pdf", ".txt", ".docx"]

def videoFromExts : List String := [".mp4", ".avi", ".mov", ".mkv", ".webm"]

def videoToExts : List String := [".mp4", ".gif", ".mp3"]

def dataFromExts : List String := [".csv", ".xlsx", ".json"]

def dataToExts : List String := [".csv", ".xlsx", ".json"]

/-- `FileConverter.SUPPORTED_CONVERSIONS` of src/bot.py. -/
def SUPPORTED_CONVERSIONS : ConvTable :=
  [("image", ⟨imageFromExts, imageToExts⟩),
   ("document", ⟨documentFromExts, documentToExts⟩),
   ("video", ⟨videoFromExts, videoToExts⟩),
   ("data", ⟨dataFromExts, dataToExts⟩)]

def imageToExtsSimple : List String := [".jpg", ".png", ".webp"]

/-- `FileConverter.SUPPORTED_CONVERSIONS` of src/bot_simple.py. -/
def SUPPORTED_CONVERSIONS_simple : ConvTable :=
  [("image", ⟨imageFromExts, imageToExtsSimple⟩)]

/-- `FileConverter.get_file_category`: iterate the registry rows in
order and return the first category whose accepted list contains the
lowercased extension; otherwise the string "unknown". -/
def get_file_category (table : ConvTable) (extension : String) : String :=
  match table with
  | [] => "unknown"
  | (category, formats) :: rest =>
      if pyLower extension ∈ formats.fromExts then category
      else get_file_category rest extension

/-- The options filter of `process_file` (bot.py line 278,
bot_simple.py line 161), which is the `targetOptionsFor` contract of
the spec: the producible list with the current format removed,
preserving order. -/
def targetOptionsFor (available_formats : List String)
    (current_format : String) : List String :=
  available_formats.filter (fun fmt => fmt ≠ current_format)


/-! ## Session state and outbound actions

`context.user_data` holds at most the key `current_file`; the session
state is that optional record. Outbound replies are modelled as a list
of transport actions in emission order. -/

/-- The dict stored under `context.user_data` key `current_file`
(the opaque `file_obj` handle is not modelled). -/
structure FileInfo where
  file_name : String
  category : String
deriving DecidableEq, Repr

/-- Outbound transport actions. -/
inductive Outbound where
  | textMessage (body : String)
  | offerChoices (options : List String)
  | documentMessage (filename caption : String)
deriving DecidableEq, Repr

def fileTooLargeMsg : String := "❌ File too large. Maximum size is 50MB."

def unsupportedMsg (ext : String) : String :=
  "❌ Unsupported file type: " ++ ext ++ "\nUse /formats to see supported formats."

def noOptionsMsg : String := "❌ No conversion options available for this file."

def noFileMsg : String := "❌ No file to convert. Please upload a file first."

def convertingMsg : String := "🔄 Converting file, please wait..."

def convertSuccessMsg : String := "✅ Conversion completed successfully!"

def convertFailedMsg : String := "❌ Conversion failed. Please try again."

def convertErrorMsg : String := "❌ An error occurred during conversion."

/-! ## Upload staging (TelegramBot.process_file)

`stageFile` is the body of `process_file` after the size check; both
source variants share it verbatim, differing only in the registry
passed for `self.converter.SUPPORTED_CONVERSIONS`. Note that the
`current_file` record is stored BEFORE the empty-options check, exactly
as in the source (bot.py lines 267 to 284, bot_simple.py 150 to 167). -/

def stageFile (table : ConvTable) (sess : Option FileInfo)
    (file_name : String) : Option FileInfo × List Outbound :=
  let file_extension := pathSuffix file_name
  let file_category := get_file_category table file_extension
  if file_category = "unknown" then
    (sess, [.textMessage (unsupportedMsg file_extension)])
  else
    let sess' := some ⟨file_name, file_category⟩
    let available_formats :=
      ((table.lookup file_category).map (fun f => f.toExts)).getD []
    let current_format := pyLower file_extension
    let conversion_options := targetOptionsFor available_formats current_format
    if conversion_options = [] then
      (sess', [.textMessage noOptionsMsg])
    else
      (sess', [.offerChoices conversion_options])

/-- `TelegramBot.MAX_FILE_SIZE`, 50 MiB, identical in both files. -/
def MAX_FILE_SIZE : Nat := 50 * 1024 * 1024

/-- `TelegramBot.process_file` of src/bot_simple.py (the variant whose
size check reads `self.MAX_FILE_SIZE` and therefore executes), taken
generically in the registry just as the source reads it through
`self.converter`. -/
def process_file (table : ConvTable) (sess : Option FileInfo)
    (file_name : String) (file_size : Nat) : Option FileInfo × List Outbound :=
  if file_size > MAX_FILE_SIZE then
    (sess, [.textMessage fileTooLargeMsg])
  else
    stageFile table sess file_name

/-- Python runtime errors the embedding distinguishes. -/
inductive PyErr where
  | nameError (name : String)
deriving DecidableEq, Repr

/-- Evaluation of the bare name `MAX_FILE_SIZE` at src/bot.py line 252:
the name is a class attribute, and a method body does not see the
enclosing class scope, so the lookup raises `NameError`. -/
def lookupBareMAXFILESIZE : Except PyErr Nat :=
  .error (.nameError "MAX_FILE_SIZE")

/-- `TelegramBot.process_file` of src/bot.py: the first statement
evaluates `file_obj.file_size > MAX_FILE_SIZE` with the bare name, so
every call raises before any check or staging is performed. -/
def process_file_botpy (sess : Option FileInfo) (file_name : String)
    (file_size : Nat) : Except PyErr (Option FileInfo × List Outbound) := do
  let limit ← lookupBareMAXFILESIZE
  if file_size > limit then
    return (sess, [.textMessage fileTooLargeMsg])
  else
    return stageFile SUPPORTED_CONVERSIONS sess file_name

/-! ## Conversion callback (TelegramBot.handle_conversion)

Identical control flow in both source files. External effects are an
environment of booleans:
  * `downloadRaises` — `context.bot.get_file` or `download_to_drive`
    raises (transport failure),
  * `convertSuccess` — the boolean returned by `self.convert_file`
    (the per-category converters catch their own exceptions, so the
    call itself never raises),
  * `outputExists` — `os.path.exists(output_path)`,
  * `sendRaises` — `send_document` raises while delivering the result.
The result records the final session, the messages in order, whether
and how the converter was invoked, and the temp-directory lifecycle
(`tempAcquired` is `tempfile.mkdtemp()`, `tempReleased` is the
`shutil.rmtree` at the end of the `try` block). -/

structure ConvEnv where
  downloadRaises : Bool
  convertSuccess : Bool
  outputExists : Bool
  sendRaises : Bool
deriving DecidableEq, Repr

structure ConvResult where
  finalSession : Option FileInfo
  messages : List Outbound
  converterInvoked : Option (String × String)
  tempAcquired : Bool
  tempReleased : Bool
  sentDocument : Bool
deriving DecidableEq, Repr

/-- Left-to-right removal of every non-overlapping occurrence of `pat`
(the semantics of Python `s.replace(pat, "")` for a nonempty pattern).
Structural recursion on a fuel equal to the input length, so that the
kernel can evaluate it. -/
def removeAllAux (pat : List Char) : Nat → List Char → List Char
  | _, [] => []
  | 0, rest => rest
  | Nat.succ fuel, c :: rest =>
      if pat ≠ [] ∧ pat.isPrefixOf (c :: rest) then
        removeAllAux pat fuel (List.drop (pat.length - 1) rest)
      else c :: removeAllAux pat fuel rest

/-- `query.data.replace('convert_', '')` (bot.py line 313,
bot_simple.py line 194). -/
def pyRemoveAll (s pat : String) : String :=
  ⟨removeAllAux pat.toList s.toList.length s.toList⟩


/-- The output file name `f"{input_name}.{target_format}"`. -/
def outputFilename (file_name target_format : String) : String :=
  pathStem file_name ++ "." ++ target_format

/-- `TelegramBot.handle_conversion` (bot.py lines 304 to 355,
bot_simple.py lines 185 to 236). The only guard is the presence of
`current_file`; the target string from the callback data is used as
is, after stripping every occurrence of `convert_`. No branch removes
`current_file` from `context.user_data`, and the `shutil.rmtree`
cleanup is inside the `try` block, after the send, so the `except`
handler is reached with the temp directory still in place. -/
def handle_conversion (sess : Option FileInfo) (callback_data : String)
    (env : ConvEnv) : ConvResult :=
  match sess with
  | none =>
      { finalSession := none
        messages := [.textMessage noFileMsg]
        converterInvoked := none
        tempAcquired := false
        tempReleased := false
        sentDocument := false }
  | some file_info =>
      let target_format := pyRemoveAll callback_data "convert_"
      if env.downloadRaises then
        { finalSession := some file_info
          messages := [.textMessage convertingMsg, .textMessage convertErrorMsg]
          converterInvoked := none
          tempAcquired := true
          tempReleased := false
          sentDocument := false }
      else
        let invoked := some (file_info.category, target_format)
        if env.convertSuccess && env.outputExists then
          if env.sendRaises then
            { finalSession := some file_info
              messages := [.textMessage convertingMsg, .textMessage convertErrorMsg]
              converterInvoked := invoked
              tempAcquired := true
              tempReleased := false
              sentDocument := false }
          else
            { finalSession := some file_info
              messages := [.textMessage convertingMsg,
                .documentMessage (outputFilename file_info.file_name target_format)
                  ("✅ Converted to " ++ target_format),
                .textMessage convertSuccessMsg]
              converterInvoked := invoked
              tempAcquired := true
              tempReleased := true
              sentDocument := true }
        else
          { finalSession := some file_info
            messages := [.textMessage convertingMsg, .textMessage convertFailedMsg]
            converterInvoked := invoked
            tempAcquired := true
            tempReleased := true
            sentDocument := false }

/-! ## Tabular converter (FileConverter.convert_data, bot.py 159-184)

The pandas readers and writers are external codecs; they are supplied
as a record of abstract functions over an abstract byte type `B` and an
abstract in-memory table type `T`. A reader that raises is modelled as
returning `Except.error`. -/

structure DataCodecs (B T : Type) where
  read_csv : B → Except Unit T
  read_excel : B → Except Unit T
  read_json : B → Except Unit T
  to_csv : T → B
  to_excel : T → B
  to_json : T → B

/-- The reader dispatch at bot.py lines 165 to 172: choose the reader
by lowercased input suffix; `none` is the final `return False` branch
for an unrecognized suffix. -/
def readSource {B T : Type} (c : DataCodecs B T) (input_ext : String)
    (content : B) : Option (Except Unit T) :=
  if input_ext = ".csv" then some (c.read_csv content)
  else if input_ext = ".xlsx" then some (c.read_excel content)
  else if input_ext = ".json" then some (c.read_json content)
  else none

/-- `FileConverter.convert_data`. Returns the boolean result together
with the bytes written at the output path, if any. A reader exception
is caught and yields `False`. Note the writer dispatch has no final
else: a target outside csv/xlsx/json writes nothing and still returns
`True`. -/
def convert_data {B T : Type} (c : DataCodecs B T) (input_path : String)
    (content : B) (target_format : String) : Bool × Option B :=
  let input_ext := pyLower (pathSuffix input_path)
  match readSource c input_ext content with
  | none => (false, none)
  | some (.error _) => (false, none)
  | some (.ok df) =>
      if target_format = "csv" then (true, some (c.to_csv df))
      else if target_format = "xlsx" then (true, some (c.to_excel df))
      else if target_format = "json" then (true, some (c.to_json df))
      else (true, none)

/-- An in-memory row/column table: ordered column names and rows of
cell values. -/
structure Table where
  cols : List String
  rows : List (List String)
deriving DecidableEq, Repr

/-- Concrete lossless codecs over `Table` itself, used to instantiate
hypotheses about information-preserving encodings on concrete inputs. -/
def idCodecs : DataCodecs Table Table :=
  { read_csv := fun b => .ok b
    read_excel := fun b => .ok b
    read_json := fun b => .ok b
    to_csv := id
    to_excel := id
    to_json := id }

/-- A two-column, two-row fixture table. -/
def sampleTable : Table :=
  { cols := ["name", "qty"], rows := [["a", "1"], ["b", "2"]] }

/-- A one-category registry whose producible list is a subset of the
accepted list, used to exercise the empty-options branch of the staging
logic (with the built-in registries that branch is unreachable). -/
def toyTable : ConvTable := [("image", ⟨[".jpg"], [".jpg"]⟩)]

/-! ## Media converter (FileConverter.convert_video, bot.py 135-157)

The moviepy calls are represented by their outcomes. The embedding
counts the `VideoFileClip` constructions (`handlesOpened`) and the
reader shutdowns performed by `close()` calls that are reached
(`handlesClosed`).

Source facts the counts encode:
  * mp3 path: one open; `clip.audio` is `None` when the source has no
    audio track, so `.write_audiofile` raises `AttributeError`, which
    the `except` catches with no `close()` reached; a writer error
    likewise skips the `close()`.
  * gif path (line 146): `VideoFileClip(input_path)` is constructed
    TWICE — once to call `.subclip`, once only to read `.duration` —
    so two handles open; the single `clip.close()` closes the reader
    shared by the subclip copy, the duration probe is never closed.
  * default path: one open, closed only when the writer does not raise.
-/

structure VideoEnv where
  hasAudio : Bool
  writeRaises : Bool
deriving DecidableEq, Repr

structure VideoResult where
  success : Bool
  handlesOpened : Nat
  handlesClosed : Nat
deriving DecidableEq, Repr

/-- `FileConverter.convert_video`. -/
def convert_video (env : VideoEnv) (target_format : String) : VideoResult :=
  if target_format = "mp3" then
    if !env.hasAudio then ⟨false, 1, 0⟩
    else if env.writeRaises then ⟨false, 1, 0⟩
    else ⟨true, 1, 1⟩
  else if target_format = "gif" then
    if env.writeRaises then ⟨false, 2, 0⟩
    else ⟨true, 2, 1⟩
  else
    if env.writeRaises then ⟨false, 1, 0⟩
    else ⟨true, 1, 1⟩

/-! ## Helper lemmas -/

theorem get_file_category_nil (ext : String) :
    get_file_category [] ext = "unknown" := rfl

theorem get_file_category_cons (c : String) (f : ConvFormats)
    (rest : ConvTable) (ext : String) :
    get_file_category ((c, f) :: rest) ext =
      if pyLower ext ∈ f.fromExts then c else get_file_category rest ext := rfl

theorem fromExts_mk (a b : List String) :
    (ConvFormats.mk a b).fromExts = a := rfl

theorem not_in_image_of_document (s : String) (hs : s ∈ documentFromExts) :
    s ∉ imageFromExts := by
  simp only [documentFromExts, List.mem_cons, List.not_mem_nil, or_false] at hs
  rcases hs with rfl | rfl | rfl <;> decide

theorem not_in_image_of_video (s : String) (hs : s ∈ videoFromExts) :
    s ∉ imageFromExts := by
  simp only [videoFromExts, List.mem_cons, List.not_mem_nil, or_false] at hs
  rcases hs with rfl | rfl | rfl | rfl | rfl <;> decide

theorem not_in_document_of_video (s : String) (hs : s ∈ videoFromExts) :
    s ∉ documentFromExts := by
  simp only [videoFromExts, List.mem_cons, List.not_mem_nil, or_false] at hs
  rcases hs with rfl | rfl | rfl | rfl | rfl <;> decide

theorem not_in_image_of_data (s : String) (hs : s ∈ dataFromExts) :
    s ∉ imageFromExts := by
  simp only [dataFromExts, List.mem_cons, List.not_mem_nil, or_false] at hs
  rcases hs with rfl | rfl | rfl <;> decide

theorem not_in_document_of_data (s : String) (hs : s ∈ dataFromExts) :
    s ∉ documentFromExts := by
  simp only [dataFromExts, List.mem_cons, List.not_mem_nil, or_false] at hs
  rcases hs with rfl | rfl | rfl <;> decide

theorem not_in_video_of_data (s : String) (hs : s ∈ dataFromExts) :
    s ∉ videoFromExts := by
  simp only [dataFromExts, List.mem_cons, List.not_mem_nil, or_false] at hs
  rcases hs with rfl | rfl | rfl <;> decide

/-! ## Claim C4 -/

/-- Claim C4 (code_bug evidence). The size boundary behaves as claimed
in the variant whose check executes (src/bot_simple.py): an upload of
exactly `MAX_FILE_SIZE` bytes passes the size check and is staged, an
upload one byte over is rejected with the FileTooLarge diagnostic and
the session stays empty. In src/bot.py, however, `process_file` reads
the bare name `MAX_FILE_SIZE` (a class attribute invisible to the
method body scope), so every upload raises `NameError` before any size
comparison or staging. -/
theorem C4_size_boundary :
    process_file SUPPORTED_CONVERSIONS_simple none "photo.png" MAX_FILE_SIZE =
      (some ⟨"photo.png", "image"⟩, [.offerChoices [".jpg", ".webp"]]) ∧
    process_file SUPPORTED_CONVERSIONS_simple none "photo.png" (MAX_FILE_SIZE + 1) =
      (none, [.textMessage fileTooLargeMsg]) ∧
    process_file_botpy none "photo.png" 1 =
      .error (.nameError "MAX_FILE_SIZE") ∧
    process_file_botpy none "photo.png" (MAX_FILE_SIZE + 1) =
      .error (.nameError "MAX_FILE_SIZE") := by
  refine ⟨by decide, by decide, rfl, rfl⟩

/-! ## Claim C6 -/

/-- Claim C6 (confirmed). `get_file_category` matches the lowercased
extension against the accepted lists of the built-in tables in order:
an extension whose lowercasing lies in a category accepted list maps to
that category, and an extension in no accepted list maps to "unknown".
Stated for the four-category table of src/bot.py and the one-category
table of src/bot_simple.py. -/
theorem C6_get_file_category (ext : String) :
    (pyLower ext ∈ imageFromExts →
      get_file_category SUPPORTED_CONVERSIONS ext = "image") ∧
    (pyLower ext ∈ documentFromExts →
      get_file_category SUPPORTED_CONVERSIONS ext = "document") ∧
    (pyLower ext ∈ videoFromExts →
      get_file_category SUPPORTED_CONVERSIONS ext = "video") ∧
    (pyLower ext ∈ dataFromExts →
      get_file_category SUPPORTED_CONVERSIONS ext = "data") ∧
    (pyLower ext ∉ imageFromExts → pyLower ext ∉ documentFromExts →
      pyLower ext ∉ videoFromExts → pyLower ext ∉ dataFromExts →
      get_file_category SUPPORTED_CONVERSIONS ext = "unknown") ∧
    (pyLower ext ∈ imageFromExts →
      get_file_category SUPPORTED_CONVERSIONS_simple ext = "image") ∧
    (pyLower ext ∉ imageFromExts →
      get_file_category SUPPORTED_CONVERSIONS_simple ext = "unknown") := by
  simp only [SUPPORTED_CONVERSIONS, SUPPORTED_CONVERSIONS_simple,
    get_file_category_cons, get_file_category_nil, fromExts_mk]
  refine ⟨?_, ?_, ?_, ?_, ?_, ?_, ?_⟩
  · intro h; rw [if_pos h]
  · intro h; rw [if_neg (not_in_image_of_document _ h), if_pos h]
  · intro h
    rw [if_neg (not_in_image_of_video _ h),
      if_neg (not_in_document_of_video _ h), if_pos h]
  · intro h
    rw [if_neg (not_in_image_of_data _ h), if_neg (not_in_document_of_data _ h),
      if_neg (not_in_video_of_data _ h), if_pos h]
  · intro h1 h2 h3 h4; rw [if_neg h1, if_neg h2, if_neg h3, if_neg h4]
  · intro h; rw [if_pos h]
  · intro h; rw [if_neg h]

/-- Claim C6 witness: the theorem applied at concrete inputs, an
uppercase image extension and an extension in no accepted list. -/
theorem C6_witness :
    get_file_category SUPPORTED_CONVERSIONS ".JPG" = "image" ∧
    get_file_category SUPPORTED_CONVERSIONS ".zip" = "unknown" := by
  refine ⟨(C6_get_file_category ".JPG").1 (by decide), ?_⟩
  exact (C6_get_file_category ".zip").2.2.2.2.1
    (by decide) (by decide) (by decide) (by decide)

/-! ## Claim C7 -/

/-- Claim C7 (confirmed). For every category row of either built-in
table and every current format, the options list is the producible
list with the current format removed, preserving order (it is a
sublist with the membership characterization), and it never contains
the current format itself; the empty result is a possible value of the
function, returned rather than an error. -/
theorem C7_target_options :
    (∀ p ∈ SUPPORTED_CONVERSIONS ++ SUPPORTED_CONVERSIONS_simple,
      ∀ ext : String,
        ext ∉ targetOptionsFor p.2.toExts ext ∧
        (targetOptionsFor p.2.toExts ext).Sublist p.2.toExts ∧
        (∀ f, f ∈ targetOptionsFor p.2.toExts ext ↔
          (f ∈ p.2.toExts ∧ f ≠ ext))) ∧
    (∃ (l : List String) (ext : String), l ≠ [] ∧ targetOptionsFor l ext = []) := by
  constructor
  · intro p _ ext
    refine ⟨?_, List.filter_sublist _, ?_⟩
    · intro hmem
      have h := (List.mem_filter.mp hmem).2
      simp at h
    · intro f
      simp [targetOptionsFor, List.mem_filter]
  · exact ⟨[".jpg"], ".jpg", by decide, by decide⟩

/-- Claim C7 witness: the theorem applied to the data category and the
current extension ".csv". -/
theorem C7_witness :
    ".csv" ∉ targetOptionsFor dataToExts ".csv" ∧
    (".xlsx" ∈ targetOptionsFor dataToExts ".csv" ↔
      (".xlsx" ∈ dataToExts ∧ ".xlsx" ≠ ".csv")) := by
  have h := C7_target_options.1 ("data", ⟨dataFromExts, dataToExts⟩)
    (by decide) ".csv"
  exact ⟨h.1, h.2.2 ".xlsx"⟩

/-! ## Claim C1 -/

/-- Claim C1 counterexample. With `data.xlsx` staged, the stale
selection `convert_xlsx` names a target that is not in the
`targetOptionsFor` result for the staged file (it equals the current
extension). The claim says such a selection is rejected with no
converter invocation; instead `handle_conversion` invokes the data
converter with that target, `convert_data` succeeds (pandas writes the
xlsx output), and a Success outcome is delivered for a target equal to
the current extension. The environment fields are instantiated with
the values `convert_data` itself produces. -/
theorem C1_counterexample :
    ".xlsx" ∉ targetOptionsFor dataToExts ".xlsx" ∧
    convert_data idCodecs "data.xlsx" sampleTable "xlsx" =
      (true, some sampleTable) ∧
    (handle_conversion (some ⟨"data.xlsx", "data"⟩) "convert_xlsx"
      ⟨false, (convert_data idCodecs "data.xlsx" sampleTable "xlsx").1,
        (convert_data idCodecs "data.xlsx" sampleTable "xlsx").2.isSome,
        false⟩).converterInvoked = some ("data", "xlsx") ∧
    (handle_conversion (some ⟨"data.xlsx", "data"⟩) "convert_xlsx"
      ⟨false, (convert_data idCodecs "data.xlsx" sampleTable "xlsx").1,
        (convert_data idCodecs "data.xlsx" sampleTable "xlsx").2.isSome,
        false⟩).sentDocument = true := by
  refine ⟨by decide, by decide, by decide, by decide⟩

/-- Claim C1 as amended. `handle_conversion` rejects a selection (no
converter invocation, outbound error, state unchanged) only when no
file is staged; with a staged file and a completing download, the
target string from the callback data is passed unvalidated to the
category converter, whatever it is — including targets outside the
`targetOptionsFor` result or equal to the current extension. -/
theorem C1_amended (fi : FileInfo) (data : String) (env : ConvEnv) :
    ((handle_conversion none data env).converterInvoked = none ∧
      (handle_conversion none data env).finalSession = none ∧
      (handle_conversion none data env).messages =
        [.textMessage noFileMsg]) ∧
    (env.downloadRaises = false →
      (handle_conversion (some fi) data env).converterInvoked =
        some (fi.category, pyRemoveAll data "convert_")) := by
  refine ⟨⟨rfl, rfl, rfl⟩, ?_⟩
  intro h
  rcases env with ⟨d, c, o, s⟩
  cases d with
  | true => cases h
  | false => cases c <;> cases o <;> cases s <;> rfl

/-- Claim C1 witness: the amended theorem applied to a staged csv file
and the stale selection `convert_mp3`. -/
theorem C1_witness :
    (handle_conversion (some ⟨"a.csv", "data"⟩) "convert_mp3"
      ⟨false, true, true, false⟩).converterInvoked =
      some ("data", pyRemoveAll "convert_mp3" "convert_") :=
  (C1_amended ⟨"a.csv", "data"⟩ "convert_mp3" ⟨false, true, true, false⟩).2 rfl

/-! ## Claim C2 -/

/-- Claim C2 counterexample. A conversion that completes with a Success
outcome (converter reported success, output present, document sent)
leaves the staged file in the session store, and a subsequent selection
event with no new upload finds it and invokes the converter again —
the claim says the StagedFile is removed and the later selection finds
none. -/
theorem C2_counterexample :
    (handle_conversion (some ⟨"a.jpg", "image"⟩) "convert_png"
      ⟨false, true, true, false⟩).sentDocument = true ∧
    (handle_conversion (some ⟨"a.jpg", "image"⟩) "convert_png"
      ⟨false, true, true, false⟩).finalSession = some ⟨"a.jpg", "image"⟩ ∧
    (handle_conversion
      ((handle_conversion (some ⟨"a.jpg", "image"⟩) "convert_png"
        ⟨false, true, true, false⟩).finalSession) "convert_png"
      ⟨false, true, true, false⟩).converterInvoked =
        some ("image", "png") := by
  refine ⟨by decide, by decide, by decide⟩

/-- Claim C2 as amended. No branch of `handle_conversion` modifies the
session store: the staged file survives every conversion outcome
(success, failure, and the exception paths) and is only ever replaced
by a new upload. -/
theorem C2_amended (sess : Option FileInfo) (data : String) (env : ConvEnv) :
    (handle_conversion sess data env).finalSession = sess := by
  cases sess with
  | none => rfl
  | some fi =>
      rcases env with ⟨d, c, o, s⟩
      cases d <;> cases c <;> cases o <;> cases s <;> rfl

/-! ## Claim C3 -/

/-- Claim C3 counterexample. When the transport download raises, the
`except` handler is reached after `tempfile.mkdtemp()` has run but
before the `shutil.rmtree` at the end of the `try` block, so the
temporary directory is acquired and never released — the claim says it
is released on every exit path including exceptions during download.
The same happens when `send_document` raises while delivering the
result. -/
theorem C3_counterexample :
    ((handle_conversion (some ⟨"a.jpg", "image"⟩) "convert_png"
      ⟨true, false, false, false⟩).tempAcquired = true ∧
     (handle_conversion (some ⟨"a.jpg", "image"⟩) "convert_png"
      ⟨true, false, false, false⟩).tempReleased = false) ∧
    ((handle_conversion (some ⟨"a.jpg", "image"⟩) "convert_png"
      ⟨false, true, true, true⟩).tempAcquired = true ∧
     (handle_conversion (some ⟨"a.jpg", "image"⟩) "convert_png"
      ⟨false, true, true, true⟩).tempReleased = false) := by
  refine ⟨⟨by decide, by decide⟩, ⟨by decide, by decide⟩⟩

/-- Claim C3 as amended. With a staged file, the temporary directory is
always acquired, and it is released exactly on the non-exception exits:
the Success path and the converter-failure or missing-output path. It
is not released when the download raises or when sending the result
raises (the converters themselves catch their own exceptions, so a
converter-raised exception cannot reach this frame). -/
theorem C3_amended (fi : FileInfo) (data : String) (env : ConvEnv) :
    (handle_conversion (some fi) data env).tempAcquired = true ∧
    (handle_conversion (some fi) data env).tempReleased =
      (!env.downloadRaises &&
        !(env.convertSuccess && env.outputExists && env.sendRaises)) := by
  rcases env with ⟨d, c, o, s⟩
  cases d <;> cases c <;> cases o <;> cases s <;> exact ⟨rfl, rfl⟩

/-! ## Claim C5 -/

/-- Every option list drawn from a producible list with two distinct
leading entries is nonempty, whatever the current format. -/
theorem targetOptionsFor_ne_nil (a b : String) (rest : List String)
    (hab : a ≠ b) (ext : String) :
    targetOptionsFor (a :: b :: rest) ext ≠ [] := by
  by_cases h : a = ext
  · have hb : ¬ (b = ext) := fun hbe => hab (h.trans hbe.symm)
    simp [targetOptionsFor, h, hb]
  · simp [targetOptionsFor, h]

/-- `get_file_category` over the bot.py registry takes one of five
values. -/
theorem gfc_cases (ext : String) :
    get_file_category SUPPORTED_CONVERSIONS ext = "image" ∨
    get_file_category SUPPORTED_CONVERSIONS ext = "document" ∨
    get_file_category SUPPORTED_CONVERSIONS ext = "video" ∨
    get_file_category SUPPORTED_CONVERSIONS ext = "data" ∨
    get_file_category SUPPORTED_CONVERSIONS ext = "unknown" := by
  simp only [SUPPORTED_CONVERSIONS, get_file_category_cons,
    get_file_category_nil, fromExts_mk]
  split_ifs <;> simp

/-- `get_file_category` over the bot_simple.py registry takes one of
two values. -/
theorem gfc_simple_cases (ext : String) :
    get_file_category SUPPORTED_CONVERSIONS_simple ext = "image" ∨
    get_file_category SUPPORTED_CONVERSIONS_simple ext = "unknown" := by
  simp only [SUPPORTED_CONVERSIONS_simple, get_file_category_cons,
    get_file_category_nil, fromExts_mk]
  split_ifs <;> simp

/-- Claim C5 counterexample. On the staging logic shared by both
source variants (generic in the registry, as the source reads it
through `self.converter`), an upload that passes the size and category
checks but has an empty options list emits only the
no-convertible-targets diagnostic — yet the StagedFile HAS been
recorded in the session store, because the store at bot.py line 267
(bot_simple.py line 150) precedes the empty-options check at line 280
(163). The claim says the session stays Idle with no StagedFile
recorded. -/
theorem C5_counterexample :
    targetOptionsFor [".jpg"] ".jpg" = [] ∧
    process_file toyTable none "x.jpg" 10 =
      (some ⟨"x.jpg", "image"⟩, [.textMessage noOptionsMsg]) := by
  refine ⟨by decide, by decide⟩

/-- Claim C5 as amended. Whenever the size and category checks pass and
the options list is empty, only the no-convertible-targets diagnostic
is emitted, but the StagedFile is recorded in the session store before
the options check; moreover with the built-in registries of both
source files the empty-options branch is unreachable, since every
category options list retains at least one entry. -/
theorem C5_amended :
    (∀ (table : ConvTable) (sess : Option FileInfo) (name : String) (size : Nat),
      ¬ size > MAX_FILE_SIZE →
      get_file_category table (pathSuffix name) ≠ "unknown" →
      targetOptionsFor
        (((table.lookup (get_file_category table (pathSuffix name))).map
          (fun f => f.toExts)).getD [])
        (pyLower (pathSuffix name)) = [] →
      process_file table sess name size =
        (some ⟨name, get_file_category table (pathSuffix name)⟩,
          [.textMessage noOptionsMsg])) ∧
    (∀ name : String,
      get_file_category SUPPORTED_CONVERSIONS (pathSuffix name) ≠ "unknown" →
      targetOptionsFor
        (((SUPPORTED_CONVERSIONS.lookup
            (get_file_category SUPPORTED_CONVERSIONS (pathSuffix name))).map
          (fun f => f.toExts)).getD [])
        (pyLower (pathSuffix name)) ≠ []) ∧
    (∀ name : String,
      get_file_category SUPPORTED_CONVERSIONS_simple (pathSuffix name) ≠ "unknown" →
      targetOptionsFor
        (((SUPPORTED_CONVERSIONS_simple.lookup
            (get_file_category SUPPORTED_CONVERSIONS_simple (pathSuffix name))).map
          (fun f => f.toExts)).getD [])
        (pyLower (pathSuffix name)) ≠ []) := by
  refine ⟨?_, ?_, ?_⟩
  · intro table sess name size hsize hcat hopt
    simp only [process_file, stageFile]
    rw [if_neg hsize, if_neg hcat, if_pos hopt]
  · intro name hcat
    rcases gfc_cases (pathSuffix name) with h | h | h | h | h
    · rw [h]
      exact targetOptionsFor_ne_nil ".jpg" ".png" [".pdf", ".webp"]
        (by decide) (pyLower (pathSuffix name))
    · rw [h]
      exact targetOptionsFor_ne_nil ".pdf" ".txt" [".docx"]
        (by decide) (pyLower (pathSuffix name))
    · rw [h]
      exact targetOptionsFor_ne_nil ".mp4" ".gif" [".mp3"]
        (by decide) (pyLower (pathSuffix name))
    · rw [h]
      exact targetOptionsFor_ne_nil ".csv" ".xlsx" [".json"]
        (by decide) (pyLower (pathSuffix name))
    · exact absurd h hcat
  · intro name hcat
    rcases gfc_simple_cases (pathSuffix name) with h | h
    · rw [h]
      exact targetOptionsFor_ne_nil ".jpg" ".png" [".webp"]
        (by decide) (pyLower (pathSuffix name))
    · exact absurd h hcat

/-- Claim C5 witness: the amended theorem applied to the toy registry
on its empty-options input and to the built-in registry on `data.csv`. -/
theorem C5_witness :
    process_file toyTable none "x.jpg" 10 =
      (some ⟨"x.jpg", get_file_category toyTable (pathSuffix "x.jpg")⟩,
        [.textMessage noOptionsMsg]) ∧
    targetOptionsFor
      (((SUPPORTED_CONVERSIONS.lookup
          (get_file_category SUPPORTED_CONVERSIONS (pathSuffix "data.csv"))).map
        (fun f => f.toExts)).getD [])
      (pyLower (pathSuffix "data.csv")) ≠ [] :=
  ⟨C5_amended.1 toyTable none "x.jpg" 10 (by decide) (by decide) (by decide),
   C5_amended.2.1 "data.csv" (by decide)⟩

/-! ## Claim C8 -/

/-- Claim C8 (confirmed). `convert_data` parses the full source into
one in-memory table and serializes that same table, so for any codec
pair that is information-preserving (the reader inverts the writer —
a property of the external pandas codecs, taken as hypotheses), a
tabular round trip such as csv → xlsx → csv reproduces a table with
the same row count, the same column order and the same cell values as
the original. -/
theorem C8_roundtrip (B : Type) (c : DataCodecs B Table) (t : Table) (src : B)
    (h1 : c.read_csv src = .ok t)
    (h2 : c.read_excel (c.to_excel t) = .ok t)
    (h3 : c.read_csv (c.to_csv t) = .ok t) :
    convert_data c "table.csv" src "xlsx" = (true, some (c.to_excel t)) ∧
    convert_data c "table.xlsx" (c.to_excel t) "csv" = (true, some (c.to_csv t)) ∧
    ∃ t2 : Table, c.read_csv (c.to_csv t) = .ok t2 ∧
      t2.rows.length = t.rows.length ∧ t2.cols = t.cols ∧ t2.rows = t.rows := by
  have e1 : pyLower (pathSuffix "table.csv") = ".csv" := by decide
  have e2 : pyLower (pathSuffix "table.xlsx") = ".xlsx" := by decide
  refine ⟨?_, ?_, ⟨t, h3, rfl, rfl, rfl⟩⟩
  · simp only [convert_data, readSource]
    rw [e1, if_pos rfl, h1]
    simp
  · simp only [convert_data, readSource]
    rw [e2, if_neg (by decide), if_pos rfl, h2]
    simp

/-- Claim C8 witness: the round-trip theorem applied to the identity
codecs and the concrete fixture table. -/
theorem C8_witness :
    convert_data idCodecs "table.csv" sampleTable "xlsx" =
      (true, some (idCodecs.to_excel sampleTable)) ∧
    convert_data idCodecs "table.xlsx" (idCodecs.to_excel sampleTable) "csv" =
      (true, some (idCodecs.to_csv sampleTable)) ∧
    ∃ t2 : Table, idCodecs.read_csv (idCodecs.to_csv sampleTable) = .ok t2 ∧
      t2.rows.length = sampleTable.rows.length ∧
      t2.cols = sampleTable.cols ∧ t2.rows = sampleTable.rows :=
  C8_roundtrip Table idCodecs sampleTable sampleTable rfl rfl rfl

/-! ## Claim C9 -/

/-- Claim C9 counterexample. On the animated-preview path,
`convert_video` constructs `VideoFileClip(input_path)` twice (bot.py
line 146: once for `.subclip`, once only to read `.duration`) and the
single `clip.close()` on the success exit closes only the reader shared
with the subclip copy: the conversion succeeds with two handles opened
and one closed, so a handle survives even the normal exit — the claim
says every opened handle is released on every exit path. -/
theorem C9_counterexample :
    (convert_video ⟨true, false⟩ "gif").success = true ∧
    (convert_video ⟨true, false⟩ "gif").handlesClosed <
      (convert_video ⟨true, false⟩ "gif").handlesOpened := by
  refine ⟨by decide, by decide⟩

/-- Claim C9 as amended. `convert_video` releases its single handle on
the success exits of the audio-extraction and full-re-encode paths
only; every exception exit (missing audio track, writer error) releases
nothing, and the animated-preview path opens two handles and releases
at most one even on success. -/
theorem C9_amended (env : VideoEnv) (target : String) :
    ((convert_video env target).success = false →
      (convert_video env target).handlesClosed = 0) ∧
    ((convert_video env target).success = true → target ≠ "gif" →
      (convert_video env target).handlesClosed =
        (convert_video env target).handlesOpened) ∧
    (target = "gif" →
      (convert_video env target).handlesOpened = 2 ∧
      (convert_video env target).handlesClosed ≤ 1) := by
  rcases env with ⟨a, w⟩
  by_cases h2 : target = "gif"
  · subst h2; cases a <;> cases w <;> decide
  · by_cases h1 : target = "mp3"
    · subst h1; cases a <;> cases w <;> decide
    · cases w
      · have hv : convert_video ⟨a, false⟩ target = ⟨true, 1, 1⟩ := by
          simp [convert_video, h1, h2]
        rw [hv]
        exact ⟨fun h => absurd h (by decide), fun _ _ => rfl,
          fun hg => absurd hg h2⟩
      · have hv : convert_video ⟨a, true⟩ target = ⟨false, 1, 0⟩ := by
          simp [convert_video, h1, h2]
        rw [hv]
        exact ⟨fun _ => rfl, fun hs _ => absurd hs (by decide),
          fun hg => absurd hg h2⟩

/-- Claim C9 witness: the amended theorem applied to the preview path
with a succeeding writer. -/
theorem C9_witness :
    (convert_video ⟨true, false⟩ "gif").handlesOpened = 2 ∧
    (convert_video ⟨true, false⟩ "gif").handlesClosed ≤ 1 :=
  (C9_amended ⟨true, false⟩ "gif").2.2 rfl

/-! ## Claim C10 -/

/-- Claim C10 (confirmed). When `convert_data` is called with a target
outside csv/xlsx/json and the source parses, the writer dispatch has no
matching branch and no final else, so it writes nothing and still
returns `True`; in the orchestrator, a converter boolean of `True` with
no file at the output path takes the failure branch of
`success and os.path.exists(output_path)`, so only the existence check
— not the boolean — prevents a missing file from being delivered,
and with the file present the document is delivered. -/
theorem C10_boolean_vs_existence :
    (∀ (B T : Type) (c : DataCodecs B T) (path : String) (content : B)
        (target : String) (df : T),
      readSource c (pyLower (pathSuffix path)) content = some (.ok df) →
      target ≠ "csv" → target ≠ "xlsx" → target ≠ "json" →
      convert_data c path content target = (true, none)) ∧
    (∀ (fi : FileInfo) (data : String) (env : ConvEnv),
      env.downloadRaises = false → env.convertSuccess = true →
      env.outputExists = false →
      (handle_conversion (some fi) data env).sentDocument = false ∧
      (handle_conversion (some fi) data env).messages =
        [.textMessage convertingMsg, .textMessage convertFailedMsg]) ∧
    (∀ (fi : FileInfo) (data : String) (env : ConvEnv),
      env.downloadRaises = false → env.convertSuccess = true →
      env.outputExists = true → env.sendRaises = false →
      (handle_conversion (some fi) data env).sentDocument = true) := by
  refine ⟨?_, ?_, ?_⟩
  · intro B T c path content target df hread hcsv hxlsx hjson
    simp only [convert_data]
    rw [hread]
    simp [hcsv, hxlsx, hjson]
  · intro fi data env hd hc ho
    rcases env with ⟨d, cv, o, s⟩
    cases hd; cases hc; cases ho
    cases s <;> exact ⟨rfl, rfl⟩
  · intro fi data env hd hc ho hs
    rcases env with ⟨d, cv, o, s⟩
    cases hd; cases hc; cases ho; cases hs
    rfl

/-- Claim C10 witness: a parsed csv source with the stale target `mp3`
yields converter success with no written output, and the orchestrator
then takes the failure branch; with the output present it delivers. -/
theorem C10_witness :
    convert_data idCodecs "d.csv" sampleTable "mp3" = (true, none) ∧
    (handle_conversion (some ⟨"d.csv", "data"⟩) "convert_mp3"
      ⟨false, true, false, false⟩).sentDocument = false ∧
    (handle_conversion (some ⟨"d.csv", "data"⟩) "convert_mp3"
      ⟨false, true, true, false⟩).sentDocument = true :=
  ⟨C10_boolean_vs_existence.1 Table Table idCodecs "d.csv" sampleTable "mp3"
      sampleTable rfl (by decide) (by decide) (by decide),
   (C10_boolean_vs_existence.2.1 ⟨"d.csv", "data"⟩ "convert_mp3"
      ⟨false, true, false, false⟩ rfl rfl rfl).1,
   C10_boolean_vs_existence.2.2 ⟨"d.csv", "data"⟩ "convert_mp3"
      ⟨false, true, true, false⟩ rfl rfl rfl rfl⟩

end ConverterBot
